import Mathlib

/-!
Shallow embedding of the `rosteron` package (read-only RosterOn Mobile
roster access): the parsed-HTML page model, the page classifier of
`Session._browse`, the post-submission branch of `Session.log_in`, the
roster parse loop of `Session.get_roster`, the cookie-guarded
`Session.log_out`, the context-manager exit of `Session.__exit__`, the
`Snapshot` sequence interface, and the file layout written by
`Session.save_logs`.  Sources: `src/rosteron/__init__.py` and
`src/rosteron/exceptions.py`.

Modelling conventions:
* Parsed HTML (a `bs4` tree) is a `Tag` tree; `Tag.str` models the
  `.string` property of a bs4 tag (`none` when bs4 would give `None`).
* Python `datetime` values are carried as their rendered strings (the
  code only ever threads them through or writes `str(dt)` to a file);
  `datetime.date` values produced by `strptime('%a %d/%m/%Y')` are
  modelled exactly, as `PyDate`.
* Python exceptions are the `PyError` sum: the package's own
  `BadResponseError` / `BadCredentialsError` / `NotLoggedInError` plus
  the builtin `KeyError` / `AttributeError` / `ValueError` that can
  escape the traced code paths.  Fallible code returns `Except PyError`.
* The two navigation modes of `Session._browse` (`browser.open` /
  `browser.submit_selected`) both either produce a `requests` response
  or raise `requests.RequestException`; this outcome is the
  `TransportResult` input of `browse`.
-/

namespace RosterOn

/-- A parsed HTML element: tag name, attribute list, child elements in
document order, and the value of the bs4 `.string` property. -/
inductive Tag where
  | mk (name : String) (attrs : List (String × String)) (children : List Tag) (str : Option String)

def Tag.name : Tag → String
  | Tag.mk n _ _ _ => n

def Tag.attrs : Tag → List (String × String)
  | Tag.mk _ a _ _ => a

def Tag.children : Tag → List Tag
  | Tag.mk _ _ cs _ => cs

def Tag.str : Tag → Option String
  | Tag.mk _ _ _ s => s

mutual
/-- All descendant elements of a tag, in document order (the search
space of a recursive bs4 `find` / `find_all` on that tag). -/
def Tag.descendants : Tag → List Tag
  | Tag.mk _ _ cs _ => descList cs
def descList : List Tag → List Tag
  | [] => []
  | t :: rest => t :: Tag.descendants t ++ descList rest
end

/-- Attribute lookup, as bs4 `tag.get(key)`: the first binding wins. -/
def Tag.attr? (t : Tag) (key : String) : Option String :=
  (t.attrs.find? (fun kv => kv.fst == key)).map (fun kv => kv.snd)

/-- Membership test `key in tag.attrs`. -/
def Tag.hasAttr (t : Tag) (key : String) : Bool :=
  t.attrs.any (fun kv => kv.fst == key)

/-- The first descendant satisfying a predicate, in document order:
bs4 `tag.find(...)`, which returns `None` (here `none`) when nothing
matches. -/
def Tag.find? (t : Tag) (p : Tag → Bool) : Option Tag :=
  t.descendants.find? p

/-- All descendants satisfying a predicate, in document order: bs4
`tag.find_all(...)`. -/
def Tag.findAll (t : Tag) (p : Tag → Bool) : List Tag :=
  t.descendants.filter p

/-- Direct children with the given element name: bs4
`tag.find_all(name, recursive=False)`. -/
def Tag.childrenNamed (t : Tag) (n : String) : List Tag :=
  t.children.filter (fun c => c.name == n)

/-- Matcher for bs4 `find(attrs={key: value})`. -/
def attrIs (key value : String) (t : Tag) : Bool :=
  t.attr? key == some value

/-- Split a character list at every occurrence of one separator
character (so `Tag.hasClass` computes inside the kernel). -/
def splitChar (sep : Char) : List Char → List (List Char)
  | [] => [[]]
  | c :: rest =>
    let r := splitChar sep rest
    if c == sep then [] :: r
    else
      match r with
      | [] => [[c]]
      | g :: gs => (c :: g) :: gs

/-- Matcher for bs4 `find(class_=token)`: the tag's `class` attribute,
split on spaces, contains the token. -/
def hasClass (token : String) (t : Tag) : Bool :=
  match t.attr? "class" with
  | some c => ((splitChar ' ' c.data).map String.mk).contains token
  | none => false

/-! Python string helpers, executable down to `List Char` so that
concrete runs reduce inside the kernel. -/

/-- When `sep` is a prefix of `s`, the remainder of `s` after it. -/
def dropLead : List Char → List Char → Option (List Char)
  | [], s => some s
  | _ :: _, [] => none
  | c :: cs, d :: ds => if c == d then dropLead cs ds else none

/-- Split at the first occurrence of the (non-empty) separator:
`some (before, after)`, or `none` when the separator never occurs. -/
def breakOnSub (sep : List Char) : List Char → Option (List Char × List Char)
  | [] => none
  | c :: rest =>
    match dropLead sep (c :: rest) with
    | some rem => some ([], rem)
    | none =>
      match breakOnSub sep rest with
      | some pq => some (c :: pq.fst, pq.snd)
      | none => none

/-- Python `s.partition(sep)` for a non-empty `sep`: split at the first
occurrence; `(s, '', '')` when the separator does not occur. -/
def pyPartition (s sep : String) : String × String × String :=
  match breakOnSub sep.data s.data with
  | some pq => (String.mk pq.fst, sep, String.mk pq.snd)
  | none => (s, "", "")

/-- Whitespace for Python `str.strip()`. -/
def isPySpace (c : Char) : Bool :=
  c == ' ' || c == '\t' || c == '\n' || c == '\r' || c.toNat == 11 || c.toNat == 12

/-- Python `s.strip()`. -/
def pyStrip (s : String) : String :=
  String.mk (((s.data.dropWhile isPySpace).reverse.dropWhile isPySpace).reverse)

/-- Value of a decimal digit character. -/
def digitVal (c : Char) : Option Nat :=
  if 48 ≤ c.toNat && c.toNat ≤ 57 then some (c.toNat - 48) else none

/-- The number a non-empty all-digit character list denotes. -/
def digitsToNat : List Char → Option Nat
  | [] => none
  | cs => go cs 0
where
  go : List Char → Nat → Option Nat
    | [], acc => some acc
    | c :: rest, acc =>
      match digitVal c with
      | some v => go rest (acc * 10 + v)
      | none => none

/-! Dates, as produced by `datetime.strptime(raw, '%a %d/%m/%Y').date()`. -/

/-- A Python `datetime.date`. -/
structure PyDate where
  year : Nat
  month : Nat
  day : Nat
deriving DecidableEq, Repr

def isLeapYear (y : Nat) : Bool :=
  (y % 4 == 0 && y % 100 != 0) || y % 400 == 0

def daysInMonth (y m : Nat) : Nat :=
  if m == 2 then (if isLeapYear y then 29 else 28)
  else if m == 4 || m == 6 || m == 9 || m == 11 then 30
  else 31

def weekdayAbbrevs : List String :=
  ["Mon", "Tue", "Wed", "Thu", "Fri", "Sat", "Sun"]

/-- Model of `datetime.strptime(s, '%a %d/%m/%Y').date()` in the C
locale: an abbreviated weekday name, a space, a 1-2 digit day, `/`, a
1-2 digit month, `/`, a 4-digit year, end of string; the day, month and
year must form a valid calendar date (else Python raises `ValueError`,
here `none`). -/
def strptimeWeekdayDMY (s : String) : Option PyDate := do
  let afterDay ← (weekdayAbbrevs.filterMap (fun w => dropLead w.data s.data)).head?
  let dmy ← match afterDay with
            | ' ' :: r => some r
            | _ => none
  let dRest ← breakOnSub ['/'] dmy
  let mY ← breakOnSub ['/'] dRest.snd
  let dn ← digitsToNat dRest.fst
  let mn ← digitsToNat mY.fst
  let yn ← digitsToNat mY.snd
  if dRest.fst.length ≤ 2 && mY.fst.length ≤ 2 && mY.snd.length == 4 &&
     1 ≤ dn && 1 ≤ mn && mn ≤ 12 && dn ≤ daysInMonth yn mn
  then some ⟨yn, mn, dn⟩ else none

/-! The package's data model. -/

/-- Exceptions that the traced code paths can raise: the three
`rosteron.exceptions` classes (`RosterOnError` subclasses) and the
Python builtins that escape uncaught. -/
inductive PyError where
  | badResponse (purpose : String)
  | badCredentials (username : String)
  | notLoggedIn
  | keyError (key : String)
  | attributeError
  | valueError
deriving DecidableEq, Repr

/-- One item of the roster (`rosteron.Item`).  The `attrs` class
annotates `date : date_type` and `title : str`, but `get_roster` passes
its loop variables, which start as `None`, so both fields are optional
here. -/
structure Item where
  date : Option PyDate
  title : Option String
  detail : List (Option String)
deriving DecidableEq, Repr

/-- One roster retrieval (`rosteron.Snapshot`): server timestamp plus
the items, in page order. -/
structure Snapshot where
  time : String
  items : List Item
deriving DecidableEq, Repr

/-- Python `len(snapshot)` (`Snapshot.__len__`). -/
def Snapshot.size (s : Snapshot) : Nat :=
  s.items.length

/-- Python `snapshot[index]` (`Snapshot.__getitem__`) for an integer
index; `none` models the `IndexError` of an out-of-range index. -/
def Snapshot.getItem (s : Snapshot) (index : Nat) : Option Item :=
  s.items.get? index

/-- Python `iter(snapshot)` (`Snapshot.__iter__`): the items in
iteration order. -/
def Snapshot.iterate (s : Snapshot) : List Item :=
  s.items

/-- A semi-evaluated RosterOn response (`rosteron._Response`): the page
timestamp, the page `id`, and the `data-role="content"` element.  The
`content` field is optional because `_browse` stores the raw result of
`page_div.find(...)`, which is `None` when the content container is
absent. -/
structure PageResult where
  time : String
  id : String
  content : Option Tag

/-- One HTTP request/response exchange, as the fields of a
`requests.Response` (with its request) that the package reads. -/
structure HttpExchange where
  method : String
  url : String
  statusCode : Nat
  reason : String
  headers : List (String × String)
  text : String

/-- The final result of one `browser.open` / `browser.submit_selected`
call: redirect history, final exchange, the parsed current page
(`browser.get_current_page()`), and the cookie names held by the
browser's cookie jar after the exchange. -/
structure HttpResponse where
  history : List HttpExchange
  final : HttpExchange
  soup : Tag
  cookieJarAfter : List String

/-- A saved request/response pair (`rosteron._LogEntry`). -/
structure LogEntry where
  time : String
  response : HttpResponse
  purpose : String

/-- The mutable state owned by a `Session`: the cookie names in the
browser's cookie jar, and the diagnostic log. -/
structure SessionState where
  cookies : List String
  log : List LogEntry

/-- The outcome of the HTTP call inside `_browse`: a response, or a
raised `requests.RequestException`. -/
inductive TransportResult where
  | success (resp : HttpResponse)
  | exn

/-- Timestamp resolution of `_browse`: the parsed `Date` response
header when present, else the captured request time (a parsed datetime
is carried as its rendered string). -/
def responseTime (headers : List (String × String)) (requestTime : String) : String :=
  match headers.find? (fun kv => kv.fst == "Date") with
  | some kv => kv.snd
  | none => requestTime

/-- Page classification of `_browse` (its final `try` block):

* `soup.find(attrs={'data-role': 'page'})` returning `None` makes
  `page_div['id']` raise `TypeError`, which the `except
  (AttributeError, TypeError)` clause turns into
  `BadResponseError(purpose)`;
* a page container without an `id` attribute makes `page_div['id']`
  raise `KeyError`, which that clause does NOT catch;
* `page_div.find(attrs={'data-role': 'content'})` returning `None` is
  not checked: the `_Response` is built with `content=None`. -/
def classify (dt : String) (soup : Tag) (purpose : String) : Except PyError PageResult :=
  match soup.find? (attrIs "data-role" "page") with
  | none => Except.error (PyError.badResponse purpose)
  | some pageDiv =>
    match pageDiv.attr? "id" with
    | none => Except.error (PyError.keyError "id")
    | some pageId =>
        Except.ok ⟨dt, pageId, pageDiv.find? (attrIs "data-role" "content")⟩

/-- The body of `Session._browse`: on a transport exception, raise
`BadResponseError(purpose)` with nothing logged; on a response, append
one `_LogEntry`, resolve the timestamp, and classify the current
page. -/
def browse (st : SessionState) (requestTime : String) (tr : TransportResult)
    (purpose : String) : SessionState × Except PyError PageResult :=
  match tr with
  | TransportResult.exn => (st, Except.error (PyError.badResponse purpose))
  | TransportResult.success resp =>
    let st1 : SessionState := ⟨resp.cookieJarAfter, st.log ++ [⟨requestTime, resp, purpose⟩]⟩
    (st1, classify (responseTime resp.final.headers requestTime) resp.soup purpose)

/-- The `Session.is_logged_in` property: `'.ASPXAUTH' in
self.browser.get_cookiejar()`. -/
def is_logged_in (st : SessionState) : Bool :=
  st.cookies.contains ".ASPXAUTH"

/-- The `Session.log_out` method: browse to `Account/LogOff` (purpose
`logout`) only when the auth cookie is present.  The final `Bool`
records whether a network call was made. -/
def log_out (st : SessionState) (requestTime : String) (tr : TransportResult) :
    SessionState × Except PyError Unit × Bool :=
  if is_logged_in st then
    let r := browse st requestTime tr "logout"
    (r.fst, r.snd.map (fun _ => Unit.unit), true)
  else
    (st, Except.ok Unit.unit, false)

/-- The `Session.__exit__` method: call `log_out` and return `False`
(the last component), so that an exception raised in the `with` block
is never suppressed. -/
def exitHandler (st : SessionState) (requestTime : String) (tr : TransportResult) :
    SessionState × Except PyError Unit × Bool :=
  let r := log_out st requestTime tr
  (r.fst, r.snd.fst, false)

/-- What the body of a `with` block does: complete normally with a
value, or raise an exception. -/
inductive BodyOutcome (α : Type) where
  | normal (a : α)
  | raised (e : PyError)
deriving DecidableEq, Repr

/-- What the whole `with` statement does: the body's outcome, or
`suppressed` when `__exit__` swallowed a body exception by returning a
truthy value. -/
inductive WithResult (α : Type) where
  | normal (a : α)
  | raised (e : PyError)
  | suppressed
deriving DecidableEq, Repr

/-- Python `with` statement semantics over a `Session`: run the body,
then always run `__exit__` on the body's final state; an exception
raised by `__exit__` itself propagates; otherwise a body exception is
re-raised exactly when `__exit__` returned a falsy value. -/
def withSession {α : Type} (st : SessionState)
    (body : SessionState → SessionState × BodyOutcome α)
    (requestTime : String) (tr : TransportResult) : SessionState × WithResult α :=
  let b := body st
  let ex := exitHandler b.fst requestTime tr
  match ex.snd.fst with
  | Except.error e2 => (ex.fst, WithResult.raised e2)
  | Except.ok _ =>
    match b.snd with
    | BodyOutcome.normal a => (ex.fst, WithResult.normal a)
    | BodyOutcome.raised e =>
      if ex.snd.snd then (ex.fst, WithResult.suppressed) else (ex.fst, WithResult.raised e)

/-- The known bad-credentials message matched by `Session.log_in`. -/
def badCredsMessage : String :=
  "Logon failure: unknown user name or bad password."

/-- Mapping of the generator `(li.string.strip() for li in ...)`: a bs4
tag whose `.string` is `None` makes `.strip()` raise
`AttributeError`. -/
def stripStrings : List Tag → Except PyError (List String)
  | [] => Except.ok []
  | li :: rest =>
    match li.str with
    | none => Except.error PyError.attributeError
    | some s => (stripStrings rest).map (fun tl => pyStrip s :: tl)

/-- The branch of `Session.log_in` that inspects the page returned by
the submitted login form:

* page id `home-index`: success (`log_in` returns `self`);
* otherwise find the `validation-summary-errors` block in the content
  fragment; a missing content fragment or a missing block makes the
  code dereference `None` (`AttributeError`, uncaught);
* exactly one stripped `<li>` string equal to the known message raises
  `BadCredentialsError(username)`; any other shape raises
  `BadResponseError('home')`. -/
def loginClassify (resp : PageResult) (username : String) : Except PyError Unit :=
  if resp.id == "home-index" then Except.ok Unit.unit
  else
    match resp.content with
    | none => Except.error PyError.attributeError
    | some content =>
      match content.find? (hasClass "validation-summary-errors") with
      | none => Except.error PyError.attributeError
      | some errorDiv =>
        match stripStrings (errorDiv.findAll (fun t => t.name == "li")) with
        | Except.error e => Except.error e
        | Except.ok errors =>
          if errors.length == 1 && errors.head? == some badCredsMessage then
            Except.error (PyError.badCredentials username)
          else
            Except.error (PyError.badResponse "home")

/-! The roster parse loop of `Session.get_roster`. -/

/-- Whether a list item is a divider: `'data-role' in li.attrs and
li['data-role'] == 'list-divider'`. -/
def isDivider (li : Tag) : Bool :=
  li.hasAttr "data-role" && li.attr? "data-role" == some "list-divider"

/-- One non-divider list item: `li.find('table')` (whose absence makes
`.find_all` raise `AttributeError`), then one detail value per `<p>`
descendant, `p.string` verbatim (`None` for an empty paragraph). -/
def rosterItem (dt : Option PyDate) (ti : Option String) (li : Tag) : Except PyError Item :=
  match li.find? (fun t => t.name == "table") with
  | none => Except.error PyError.attributeError
  | some table =>
    Except.ok ⟨dt, ti, (table.findAll (fun t => t.name == "p")).map Tag.str⟩

/-- The `for li in list_view.find_all('li', recursive=False)` loop of
`get_roster`, threading the current divider date and title:

* a divider's `.string` is split by `partition(' - ')` into a raw date
  (parsed with `strptime('%a %d/%m/%Y')`, whose failure raises
  `ValueError`) and the title after the first separator;
* every other item is appended as `Item(date, title, detail)`. -/
def rosterGo (dt : Option PyDate) (ti : Option String) :
    List Tag → Except PyError (List Item)
  | [] => Except.ok []
  | li :: rest =>
    if isDivider li then
      match li.str with
      | none => Except.error PyError.attributeError
      | some s =>
        match strptimeWeekdayDMY (pyPartition s " - ").fst with
        | none => Except.error PyError.valueError
        | some d => rosterGo (some d) (some (pyPartition s " - ").snd.snd) rest
    else
      match rosterItem dt ti li with
      | Except.error e => Except.error e
      | Except.ok item => (rosterGo dt ti rest).map (fun items => item :: items)

/-- The `Session.get_roster` body after `_browse` returned a
`PageResult`: a login page id raises `NotLoggedInError`; otherwise the
`data-role="listview"` container is located in the content fragment (a
missing fragment or container dereferences `None`: `AttributeError`),
its direct `li` children are folded by `rosterGo` starting from
`date = None, title = None`, and the items are wrapped with the page
timestamp into a `Snapshot`. -/
def get_roster (resp : PageResult) : Except PyError Snapshot :=
  if resp.id == "account-login" then Except.error PyError.notLoggedIn
  else
    match resp.content with
    | none => Except.error PyError.attributeError
    | some content =>
      match content.find? (attrIs "data-role" "listview") with
      | none => Except.error PyError.attributeError
      | some listView =>
        match rosterGo none none (listView.childrenNamed "li") with
        | Except.error e => Except.error e
        | Except.ok items => Except.ok ⟨resp.time, items⟩

/-! The file layout written by `Session.save_logs`. -/

/-- Concatenation of the strings passed to `file.writelines` (which
writes each string in order, inserting nothing). -/
def concatAll : List String → String
  | [] => ""
  | s :: rest => s ++ concatAll rest

/-- The exact list passed to `file.writelines` in `save_logs` for one
log entry and one exchange of its chain. -/
def logFileLines (e : LogEntry) (r : HttpExchange) : List String :=
  [e.time, "\n",
   r.method ++ " " ++ r.url ++ "\n",
   toString r.statusCode ++ " " ++ r.reason ++ "\n",
   "\n"]
  ++ r.headers.map (fun kv => kv.fst ++ ": " ++ kv.snd ++ "\n")
  ++ ["\n", r.text]

/-- The text of one file written by `save_logs`. -/
def logFileText (e : LogEntry) (r : HttpExchange) : String :=
  concatAll (logFileLines e r)

/-- The header block as a single string. -/
def headerBlock (headers : List (String × String)) : String :=
  concatAll (headers.map (fun kv => kv.fst ++ ": " ++ kv.snd ++ "\n"))

/-- The file texts emitted by `save_logs`, one per exchange
(`[*entry.response.history, entry.response]`) of each log entry, in
order. -/
def saveLogsTexts (log : List LogEntry) : List String :=
  log.flatMap (fun e => (e.response.history ++ [e.response.final]).map (logFileText e))

/-- The file layout exactly as the claim words it: timestamp line,
request line, status line, then the headers immediately (no blank line
after the status line), one blank line, then the body.  Written from
the claim, for comparison with `logFileText`. -/
def claimedLogFileText (e : LogEntry) (r : HttpExchange) : String :=
  e.time ++ "\n" ++
  r.method ++ " " ++ r.url ++ "\n" ++
  toString r.statusCode ++ " " ++ r.reason ++ "\n" ++
  headerBlock r.headers ++
  "\n" ++ r.text

/-! Concrete fixtures used by the theorems below. -/

/-- A response document with no `data-role="page"` container. -/
def noPageDiv : Tag :=
  Tag.mk "html" [] [Tag.mk "div" [] [] none] none

/-- A response document whose page container has no `id` attribute. -/
def pageNoId : Tag :=
  Tag.mk "html" [] [Tag.mk "div" [("data-role", "page")] [] none] none

/-- A response document whose page container has an `id` but no
`data-role="content"` child. -/
def pageNoContent : Tag :=
  Tag.mk "html" [] [Tag.mk "div" [("data-role", "page"), ("id", "home-index")] [] none] none

/-- A validation-error list item with the given message text. -/
def liMsg (s : String) : Tag :=
  Tag.mk "li" [] [] (some s)

/-- A `validation-summary-errors` block holding the given items. -/
def errBlock (lis : List Tag) : Tag :=
  Tag.mk "div" [("class", "validation-summary-errors")] lis none

/-- A content fragment holding the given blocks. -/
def loginContentWith (blocks : List Tag) : Tag :=
  Tag.mk "div" [("data-role", "content")] blocks none

/-- The divider of the spec's end-to-end example. -/
def dividerLi : Tag :=
  Tag.mk "li" [("data-role", "list-divider")] []
    (some "Tue 11/06/2019 - ABCDE - Melbourne Office")

/-- A detail paragraph cell (`none` for an empty paragraph). -/
def pCell (s : Option String) : Tag :=
  Tag.mk "p" [] [] s

/-- The data row of the spec's end-to-end example. -/
def dataLi : Tag :=
  Tag.mk "li" []
    [Tag.mk "table" []
      [pCell (some "10:30 - 18:06"), pCell none, pCell (some "XYZ"), pCell (some "Assistant")]
      none]
    none

/-- The roster listing page of the spec's end-to-end example. -/
def rosterPage : PageResult :=
  ⟨"Mon, 10 Jun 2019 04:28:38 GMT", "roster-list",
   some (Tag.mk "div" [("data-role", "content")]
     [Tag.mk "ul" [("data-role", "listview")] [dividerLi, dataLi] none] none)⟩

/-- The item the spec's end-to-end example expects. -/
def rosterExampleItem : Item :=
  ⟨some ⟨2019, 6, 11⟩, some "ABCDE - Melbourne Office",
   [some "10:30 - 18:06", none, some "XYZ", some "Assistant"]⟩

/-- A data row carrying a single detail cell `X`. -/
def plainLi : Tag :=
  Tag.mk "li" [] [Tag.mk "table" [] [pCell (some "X")] none] none

/-- A roster listing whose list has one data row before the first
divider. -/
def preDividerPage : PageResult :=
  ⟨"t", "roster-list",
   some (Tag.mk "div" [("data-role", "content")]
     [Tag.mk "ul" [("data-role", "listview")] [plainLi, dividerLi, dataLi] none] none)⟩

/-- A login-page exchange, as in the module docstring of `save_logs`. -/
def sampleExchange : HttpExchange :=
  ⟨"GET", "http://example.com/RosterOnProd/Mobile/Account/Login", 200, "OK",
   [("Date", "Mon, 10 Jun 2019 04:28:38 GMT")], "<!DOCTYPE html>"⟩

/-- A log entry holding `sampleExchange` as its final response. -/
def sampleEntry : LogEntry :=
  ⟨"2019-06-10 04:28:37.160169+00:00", ⟨[], sampleExchange, noPageDiv, []⟩, "login"⟩

/-! Helper lemmas shared by the claim theorems. -/

theorem concatAll_append (l1 l2 : List String) :
    concatAll (l1 ++ l2) = concatAll l1 ++ concatAll l2 := by
  induction l1 with
  | nil => rfl
  | cons s rest ih => simp [concatAll, ih, String.append_assoc]

theorem rosterItem_fields (dt : Option PyDate) (ti : Option String) (li : Tag) (it : Item)
    (h : rosterItem dt ti li = Except.ok it) : it.date = dt ∧ it.title = ti := by
  unfold rosterItem at h
  cases hf : li.find? (fun t => t.name == "table") with
  | none => simp [hf] at h
  | some table =>
    simp only [hf] at h
    injection h with h2
    subst h2
    exact ⟨rfl, rfl⟩

/-- Running the parse loop over a run of non-divider items prepends one
item per row, each carrying the current divider date and title. -/
theorem rosterGo_nondivider_prefix (pre : List Tag) :
    ∀ (rest : List Tag) (dt : Option PyDate) (ti : Option String) (items : List Item),
      (∀ li ∈ pre, isDivider li = false) →
      rosterGo dt ti (pre ++ rest) = Except.ok items →
      ∃ preItems restItems,
        items = preItems ++ restItems ∧
        preItems.length = pre.length ∧
        (∀ it ∈ preItems, it.date = dt ∧ it.title = ti) ∧
        rosterGo dt ti rest = Except.ok restItems := by
  induction pre with
  | nil =>
    intro rest dt ti items _ hok
    exact ⟨[], items, by simp, rfl, by simp, hok⟩
  | cons li pre ih =>
    intro rest dt ti items hnd hok
    have hli : isDivider li = false := hnd li (by simp)
    rw [List.cons_append] at hok
    rw [show rosterGo dt ti (li :: (pre ++ rest)) =
          (match rosterItem dt ti li with
           | Except.error e => Except.error e
           | Except.ok item => (rosterGo dt ti (pre ++ rest)).map (fun items => item :: items))
        from by simp [rosterGo, hli]] at hok
    cases hri : rosterItem dt ti li with
    | error e => simp [hri] at hok
    | ok item =>
      rw [hri] at hok
      cases hrg : rosterGo dt ti (pre ++ rest) with
      | error e => simp [hrg, Except.map] at hok
      | ok l =>
        rw [hrg] at hok
        simp only [Except.map, Except.ok.injEq] at hok
        obtain ⟨pI, rI, hsplit, hlen, hfields, hrest⟩ :=
          ih rest dt ti l (fun x hx => hnd x (List.mem_cons_of_mem li hx)) hrg
        refine ⟨item :: pI, rI, ?_, ?_, ?_, hrest⟩
        · rw [← hok, hsplit, List.cons_append]
        · simp [hlen]
        · intro x hx
          rcases List.mem_cons.mp hx with hx1 | hx2
          · subst hx1
            exact rosterItem_fields dt ti li x hri
          · exact hfields x hx2

/-! The claim theorems. -/

/-- C1.  What `_browse` page classification actually does when one of
the three required page traits is absent: a missing page container
raises `BadResponseError` (the claim's behaviour), but a page container
without an `id` attribute raises an uncaught `KeyError`, and a missing
nested content container raises nothing at all — classification
succeeds with `content = None`.  So `BadResponse` is signalled in only
one of the three absence cases, refuting the claim on the other two. -/
theorem c1_classify_trait_absence :
    classify "t" noPageDiv "roster" = Except.error (PyError.badResponse "roster") ∧
    classify "t" pageNoId "roster" = Except.error (PyError.keyError "id") ∧
    classify "t" pageNoContent "roster" = Except.ok ⟨"t", "home-index", none⟩ :=
  ⟨rfl, rfl, rfl⟩

/-- C2.  What `log_in` actually does with a submitted-form response
that is not the home page: exactly one stripped error equal to the
known bad-credentials message signals `BadCredentials(username)`, a
different single message or zero messages signals `BadResponse('home')`
— but when the validation-errors block is entirely absent from the
content fragment the code dereferences `None` and raises an uncaught
`AttributeError`, not `BadResponse`, refuting that part of the claim.
The home-page id returns success. -/
theorem c2_login_failure_shapes :
    loginClassify ⟨"t", "account-login", some (loginContentWith [])⟩ "joe.bloggs"
      = Except.error PyError.attributeError ∧
    loginClassify ⟨"t", "account-login",
        some (loginContentWith [errBlock [liMsg badCredsMessage]])⟩ "joe.bloggs"
      = Except.error (PyError.badCredentials "joe.bloggs") ∧
    loginClassify ⟨"t", "account-login",
        some (loginContentWith [errBlock [liMsg "Some other error."]])⟩ "joe.bloggs"
      = Except.error (PyError.badResponse "home") ∧
    loginClassify ⟨"t", "account-login",
        some (loginContentWith [errBlock []])⟩ "joe.bloggs"
      = Except.error (PyError.badResponse "home") ∧
    loginClassify ⟨"t", "home-index", some (loginContentWith [])⟩ "joe.bloggs"
      = Except.ok Unit.unit :=
  ⟨rfl, rfl, rfl, rfl, rfl⟩

/-- C3 counterexample.  At a concrete log entry with one response
header, the file text written by `save_logs` differs from the layout
the claim describes (status line immediately followed by the headers):
the code writes a blank line between the status line and the headers. -/
theorem c3_status_blank_line_counterexample :
    logFileText sampleEntry sampleExchange ≠ claimedLogFileText sampleEntry sampleExchange := by
  decide

/-- C3 amended.  Each file written by `save_logs` consists, in order,
of the capture timestamp line, the request method and URL line, the
response status line, then a single blank line, then all response
headers, then another blank line, then the raw response body. -/
theorem c3_log_file_layout (e : LogEntry) (r : HttpExchange) :
    logFileText e r =
      e.time ++ "\n" ++
      (r.method ++ " " ++ r.url ++ "\n") ++
      (toString r.statusCode ++ " " ++ r.reason ++ "\n") ++
      "\n" ++
      headerBlock r.headers ++
      "\n" ++ r.text := by
  unfold logFileText logFileLines headerBlock
  rw [concatAll_append, concatAll_append]
  simp [concatAll, String.append_assoc, String.append_empty]

/-- C4.  The roster parse loop (1) consumes a divider by splitting its
text at the first ` - ` into a date portion, parsed with the strict
`%a %d/%m/%Y` format, and a title, which become the current pair for
the items that follow; (2) gives every item of a divider-free run the
current pair, i.e. the pair of the most recent divider until the next
one; and (3) on the spec's example page — divider
`Tue 11/06/2019 - ABCDE - Melbourne Office` followed by one data row
with cells `10:30 - 18:06`, empty, `XYZ`, `Assistant` — `get_roster`
yields exactly one Item with date 2019-06-11, title
`ABCDE - Melbourne Office` and detail
`('10:30 - 18:06', None, 'XYZ', 'Assistant')`. -/
theorem c4_roster_divider_grouping :
    (∀ (dt : Option PyDate) (ti : Option String) (dv : Tag) (rest : List Tag)
       (s : String) (d : PyDate),
       isDivider dv = true → dv.str = some s →
       strptimeWeekdayDMY (pyPartition s " - ").fst = some d →
       rosterGo dt ti (dv :: rest)
         = rosterGo (some d) (some (pyPartition s " - ").snd.snd) rest) ∧
    (∀ (dt : Option PyDate) (ti : Option String) (lis : List Tag) (items : List Item),
       (∀ li ∈ lis, isDivider li = false) →
       rosterGo dt ti lis = Except.ok items →
       ∀ it ∈ items, it.date = dt ∧ it.title = ti) ∧
    get_roster rosterPage
      = Except.ok ⟨"Mon, 10 Jun 2019 04:28:38 GMT", [rosterExampleItem]⟩ := by
  refine ⟨?_, ?_, rfl⟩
  · intro dt ti dv rest s d h1 h2 h3
    simp [rosterGo, h1, h2, h3]
  · intro dt ti lis items hnd hok
    obtain ⟨pI, rI, hsplit, hlen, hfields, hrest⟩ :=
      rosterGo_nondivider_prefix lis [] dt ti items hnd (by simpa using hok)
    have hrI : rI = [] := by
      have := hrest
      simp only [rosterGo] at this
      exact (Except.ok.inj this).symm
    intro it hit
    exact hfields it (by simpa [hsplit, hrI] using hit)

/-- C5.  Whenever the classified response of `get_roster` carries the
login page's identity token `account-login`, `get_roster` raises
`NotLoggedInError`, whatever the content fragment holds. -/
theorem c5_roster_not_logged_in (resp : PageResult)
    (h : resp.id = "account-login") :
    get_roster resp = Except.error PyError.notLoggedIn := by
  simp [get_roster, h]

theorem c5_roster_not_logged_in_witness :
    get_roster ⟨"t", "account-login", none⟩ = Except.error PyError.notLoggedIn :=
  c5_roster_not_logged_in ⟨"t", "account-login", none⟩ rfl

/-- C6.  For every scoped use of a Session, '__exit__' runs `log_out`
on the body's final state on every exit path (normal or raised), always
returns `False` (reports non-suppression), never yields a suppressed
outcome, and a body exception propagates unchanged whenever the logout
itself does not raise. -/
theorem c6_scoped_exit_logout {α : Type} (st : SessionState)
    (body : SessionState → SessionState × BodyOutcome α)
    (rt : String) (tr : TransportResult) :
    (exitHandler (body st).fst rt tr).snd.snd = false ∧
    (withSession st body rt tr).fst = (log_out (body st).fst rt tr).fst ∧
    (withSession st body rt tr).snd ≠ WithResult.suppressed ∧
    (∀ e, (body st).snd = BodyOutcome.raised e →
       (log_out (body st).fst rt tr).snd.fst = Except.ok Unit.unit →
       (withSession st body rt tr).snd = WithResult.raised e) := by
  refine ⟨rfl, ?_, ?_, ?_⟩ <;>
    cases hb : (body st).snd <;>
      cases hl : (log_out (body st).fst rt tr).snd.fst <;>
        simp [withSession, exitHandler, hb, hl]

/-- C7.  On a Session whose cookie jar has no `.ASPXAUTH` cookie,
`log_out` returns the state unchanged (cookies and diagnostic log
alike), raises nothing, and makes no network call. -/
theorem c7_logout_noop (st : SessionState) (rt : String) (tr : TransportResult)
    (h : is_logged_in st = false) :
    log_out st rt tr = (st, Except.ok Unit.unit, false) := by
  simp [log_out, h]

theorem c7_logout_noop_witness :
    log_out ⟨[], []⟩ "t" TransportResult.exn = (⟨[], []⟩, Except.ok Unit.unit, false) :=
  c7_logout_noop ⟨[], []⟩ "t" TransportResult.exn rfl

/-- C8.  A Snapshot built from a sequence of items has the sequence's
length, yields the i-th item at every valid index, and iterates in
index order; in particular three consecutive same-date/title items give
length 3. -/
theorem c8_snapshot_sequence :
    (∀ (time : String) (items : List Item),
       (Snapshot.mk time items).size = items.length ∧
       (Snapshot.mk time items).iterate = items ∧
       ∀ (i : Nat) (h : i < items.length),
         (Snapshot.mk time items).getItem i = some (items.get ⟨i, h⟩)) ∧
    (Snapshot.mk "t" [rosterExampleItem, rosterExampleItem, rosterExampleItem]).size = 3 := by
  refine ⟨fun time items => ⟨rfl, rfl, fun i h => ?_⟩, rfl⟩
  exact List.get?_eq_get h

/-- C9.  When the HTTP exchange succeeds, `_browse` appends exactly one
log entry — the appended exchange is later emitted by `save_logs` —
regardless of whether page classification then succeeds or fails;
whereas a transport-level exception leaves the log untouched. -/
theorem c9_browse_log_growth (st : SessionState) (rt : String) (purp : String) :
    (∀ resp : HttpResponse,
       ((browse st rt (TransportResult.success resp) purp).fst).log
         = st.log ++ [⟨rt, resp, purp⟩]) ∧
    (∀ resp : HttpResponse,
       saveLogsTexts ((browse st rt (TransportResult.success resp) purp).fst).log
         = saveLogsTexts st.log
           ++ (resp.history ++ [resp.final]).map (logFileText ⟨rt, resp, purp⟩)) ∧
    ((browse st rt TransportResult.exn purp).fst).log = st.log := by
  refine ⟨fun resp => rfl, fun resp => ?_, rfl⟩
  simp [saveLogsTexts, browse]

/-- C10.  Non-divider rows before the first divider produce Items whose
date and title are both `None`: every item of a divider-free leading
run of the list is parsed with the initial `date = None, title = None`
pair, and on a concrete page with one data row before the divider,
`get_roster` returns that row as `Item(None, None, ('X',))`. -/
theorem c10_pre_divider_items :
    (∀ (pre rest : List Tag) (items : List Item),
       (∀ li ∈ pre, isDivider li = false) →
       rosterGo none none (pre ++ rest) = Except.ok items →
       pre.length ≤ items.length ∧
       ∀ it ∈ items.take pre.length, it.date = none ∧ it.title = none) ∧
    get_roster preDividerPage
      = Except.ok ⟨"t", [⟨none, none, [some "X"]⟩, rosterExampleItem]⟩ := by
  constructor
  · intro pre rest items hnd hok
    obtain ⟨pI, rI, hsplit, hlen, hfields, hrest⟩ :=
      rosterGo_nondivider_prefix pre rest none none items hnd hok
    subst hsplit
    constructor
    · simp [← hlen]
    · rw [← hlen, List.take_left]
      exact hfields
  · rfl

end RosterOn
